import Mathlib

/-!
Shallow embedding of `reziser.py`, an image-resizing tool that fits every
input image onto a fixed 3000x3000 canvas, preserving aspect ratio,
centering the scaled image and padding with a black or transparent
background.

Modelling conventions:
* The scale computation of lines 44-48 is modelled twice.  `scale`,
  `new_width` and `new_height` give the spec's idealized exact-rational
  semantics (floor of the exact products).  `F64` with `scale_f64`,
  `new_width_f64` and `new_height_f64` model the binary64 floating-point
  arithmetic the program actually performs: correctly rounded division
  and multiplication, round to nearest with ties to even, valid for
  values in the normal range (the fuel bounds cover exponents far beyond
  any image dimension).  The two semantics disagree on concrete inputs,
  which settles the scaling claims.
* Python `int(...)` applied to a nonnegative value is truncation toward
  zero, modelled by `pyInt` on rationals and by `truncF64` on floats.
* Python `//` on integers is floor division, modelled by `Int.fdiv`.
* Pillow images are modelled by their dimensions, channel mode and the
  presence of a `transparency` entry in `img.info`; decoding, resampling
  and encoding are external effects, abstracted by the `FileSystem`
  record.
* Filesystem paths are `String`s; a folder listing is the list of
  relative paths of the entries — files and subdirectories alike — in
  the folder's subtree, where a direct child is a relative path
  containing no slash.  `pathlib` glob matching on POSIX is
  case-sensitive, a `*` wildcard also matches the empty string, and glob
  patterns match directory names as well as file names; an entry that is
  a directory fails at `Image.open`, so it decodes to `none`.
  `pathlib`'s `suffix` is the final-component extension from the last
  dot, empty when the dot is leading or trailing.
-/

set_option autoImplicit false

namespace Reziser

/-- Constant `TARGET_SIZE = 3000` from `reziser.py`. -/
def TARGET_SIZE : ℕ := 3000

/-- Constant `SUPPORTED_FORMATS` from `reziser.py` (a Python set; modelled
as a list, membership being all the code depends on up to file order). -/
def SUPPORTED_FORMATS : List String :=
  [".jpg", ".jpeg", ".png", ".gif", ".bmp", ".tiff", ".webp"]

/-- Pillow channel modes distinguished by `resize_image`: `RGBA`, `LA`
and `P` are tested explicitly; `RGB` and `L` stand for the remaining
(alpha-free) modes of the spec's data model. -/
inductive Mode where
  | RGBA
  | LA
  | P
  | RGB
  | L
  deriving DecidableEq, Repr

/-- A decoded source image: dimensions, channel mode, and whether
`img.info` carries a `transparency` entry. -/
structure SourceImage where
  width : ℕ
  height : ℕ
  mode : Mode
  hasTransparencyInfo : Bool
  deriving DecidableEq, Repr

/-- Python `int(q)`: truncation toward zero of a rational. -/
def pyInt (q : ℚ) : ℤ :=
  if 0 ≤ q then ⌊q⌋ else -⌊-q⌋

/-- Line 44 idealized in exact rationals:
`scale = min(TARGET_SIZE / original_width, TARGET_SIZE / original_height)`
with exact division — the floor-of-exact-ratio semantics the spec
defines.  The program's binary64 evaluation is `scale_f64` below; the
two differ on concrete inputs. -/
def scale (w h : ℕ) : ℚ :=
  min ((TARGET_SIZE : ℚ) / w) ((TARGET_SIZE : ℚ) / h)

/-- Line 47 idealized in exact rationals:
`new_width = int(original_width * scale)`.  The program's binary64
evaluation is `new_width_f64`, which can land one below this value. -/
def new_width (w h : ℕ) : ℕ :=
  (pyInt ((w : ℚ) * scale w h)).toNat

/-- Line 48 idealized in exact rationals:
`new_height = int(original_height * scale)`.  The program's binary64
evaluation is `new_height_f64`, which can land one below this value. -/
def new_height (w h : ℕ) : ℕ :=
  (pyInt ((h : ℚ) * scale w h)).toNat

/-! A model of the binary64 floating-point arithmetic the program
performs on lines 44-48.  A positive finite float is an exact dyadic
rational `n * 2 ^ (exp - 52)`; division and multiplication produce the
correctly rounded result (round to nearest, ties to even) as IEEE 754
prescribes and Python delivers.  The model is value-faithful for the
normal range; overflow and subnormals are far outside any image
dimension. -/

/-- Fuel-bounded floor of the base-2 logarithm of a positive natural:
the number of halvings until the value reaches one.  The fuel only
bounds the recursion depth; 200 covers every number below `2 ^ 200`. -/
def log2floorAux : ℕ → ℕ → ℕ
  | 0, _ => 0
  | fuel + 1, n => if n ≤ 1 then 0 else log2floorAux fuel (n / 2) + 1

/-- Fuel-bounded search for the smallest `k ≥ 1` with `b ≤ a * 2 ^ k`,
the magnitude of the (negative) exponent of `a / b` when `a < b`. -/
def negExpAux : ℕ → ℕ → ℕ → ℕ
  | 0, _, _ => 1
  | fuel + 1, a, b => if b ≤ 2 * a then 1 else negExpAux fuel (2 * a) b + 1

/-- The exponent `e` with `2 ^ e ≤ a / b < 2 ^ (e + 1)`, for positive
`a` and `b` (exponents of magnitude up to 200). -/
def floorLog2 (a b : ℕ) : ℤ :=
  if b ≤ a then (log2floorAux 200 (a / b) : ℤ) else -(negExpAux 200 a b : ℤ)

/-- A positive finite binary64 value `n * 2 ^ (exp - 52)`; the results
of a rounding satisfy `2 ^ 52 ≤ n ≤ 2 ^ 53`.  All operations below are
value-faithful even on unnormalized representations. -/
structure F64 where
  n : ℕ
  exp : ℤ
  deriving DecidableEq, Repr

/-- Round the positive rational `a / b` to the nearest binary64 value:
scale into `[2 ^ 52, 2 ^ 53)`, divide with remainder, round to nearest
with ties to even. -/
def roundF64 (a b : ℕ) : F64 :=
  let e := floorLog2 a b
  let num := a * 2 ^ (52 - e).toNat
  let den := b * 2 ^ (e - 52).toNat
  let n0 := num / den
  let r := num % den
  ⟨if 2 * r < den then n0
    else if den < 2 * r then n0 + 1
    else if n0 % 2 = 0 then n0 else n0 + 1, e⟩

/-- Binary64 true division of two naturals, as Python computes `a / b`
on integers: both convert exactly (they are below `2 ^ 53`) and the
quotient is correctly rounded. -/
def divF64 (a b : ℕ) : F64 := roundF64 a b

/-- Binary64 product of a natural and a float, as Python computes
`w * s`: the int converts exactly and the product is correctly
rounded. -/
def mulNatF64 (w : ℕ) (x : F64) : F64 :=
  roundF64 (w * x.n * 2 ^ (x.exp - 52).toNat) (2 ^ (52 - x.exp).toNat)

/-- Value comparison of two positive binary64 numbers, by cross-shifting
onto a common exponent. -/
def leF64 (x y : F64) : Bool :=
  decide (x.n * 2 ^ (x.exp - y.exp).toNat ≤ y.n * 2 ^ (y.exp - x.exp).toNat)

/-- Python `min` on two floats: the first argument when the values are
equal. -/
def minF64 (x y : F64) : F64 :=
  if leF64 x y then x else y

/-- Python `int(...)` on a positive binary64 value: truncation toward
zero. -/
def truncF64 (x : F64) : ℕ :=
  x.n * 2 ^ (x.exp - 52).toNat / 2 ^ (52 - x.exp).toNat

/-- Line 44 as the program computes it:
`scale = min(TARGET_SIZE / original_width, TARGET_SIZE / original_height)`
in binary64. -/
def scale_f64 (w h : ℕ) : F64 :=
  minF64 (divF64 TARGET_SIZE w) (divF64 TARGET_SIZE h)

/-- Line 47 as the program computes it:
`new_width = int(original_width * scale)` in binary64. -/
def new_width_f64 (w h : ℕ) : ℕ :=
  truncF64 (mulNatF64 w (scale_f64 w h))

/-- Line 48 as the program computes it:
`new_height = int(original_height * scale)` in binary64. -/
def new_height_f64 (w h : ℕ) : ℕ :=
  truncF64 (mulNatF64 h (scale_f64 w h))

/-- Line 55: `img.mode in ('RGBA', 'LA') or (img.mode == 'P' and 'transparency' in img.info)`. -/
def usesTransparentBackground (img : SourceImage) : Bool :=
  match img.mode with
  | Mode.RGBA => true
  | Mode.LA => true
  | Mode.P => img.hasTransparencyInfo
  | _ => false

/-- The composited output of `resize_image`: the canvas, its background
fill (one entry per channel), the mode and dimensions of the pasted
resampled image, and the paste offsets. -/
structure FitResult where
  canvasWidth : ℕ
  canvasHeight : ℕ
  canvasMode : Mode
  background : List ℕ
  pastedMode : Mode
  pastedWidth : ℕ
  pastedHeight : ℕ
  xOffset : ℤ
  yOffset : ℤ
  deriving DecidableEq, Repr

/-- Lines 44-73 of `resize_image`, the successful path: scale, choose the
background, and compute the centered placement.  Offsets are Python `//`
on possibly negative operands, hence `Int.fdiv`.  The scaled dimensions
here are the idealized exact ones; the facts proved about `fitCanvas`
below — constant canvas size, background selection, offset bounds valid
for any scaled size up to the target — hold equally under the binary64
dimensions, which also lie in `[0, TARGET_SIZE]`. -/
def fitCanvas (img : SourceImage) : FitResult :=
  let nw := new_width img.width img.height
  let nh := new_height img.width img.height
  if usesTransparentBackground img then
    { canvasWidth := TARGET_SIZE
      canvasHeight := TARGET_SIZE
      canvasMode := Mode.RGBA
      background := [0, 0, 0, 0]
      pastedMode := Mode.RGBA
      pastedWidth := nw
      pastedHeight := nh
      xOffset := Int.fdiv ((TARGET_SIZE : ℤ) - (nw : ℤ)) 2
      yOffset := Int.fdiv ((TARGET_SIZE : ℤ) - (nh : ℤ)) 2 }
  else
    { canvasWidth := TARGET_SIZE
      canvasHeight := TARGET_SIZE
      canvasMode := Mode.RGB
      background := [0, 0, 0]
      pastedMode := Mode.RGB
      pastedWidth := nw
      pastedHeight := nh
      xOffset := Int.fdiv ((TARGET_SIZE : ℤ) - (nw : ℤ)) 2
      yOffset := Int.fdiv ((TARGET_SIZE : ℤ) - (nh : ℤ)) 2 }

/-- The body of `resize_image` on an already decoded image.  A zero width
or height raises `ZeroDivisionError` at line 44 (Python true division of
integers), which the `except` at line 86 turns into a reported failure;
otherwise the fit succeeds. -/
def resize_image (img : SourceImage) : Except String FitResult :=
  if img.width = 0 ∨ img.height = 0 then
    Except.error "ZeroDivisionError: division by zero"
  else
    Except.ok (fitCanvas img)

/-- External effects: whether a path is an existing regular file, what
`Image.open` yields on it (`none` when opening or decoding raises,
including when the path names a directory, where `Image.open` raises
`IsADirectoryError`), and the folder listing (`none` when
`os.path.isdir` is false, otherwise the relative paths of all entries of
the subtree, files and subdirectories alike, since glob patterns match
directory names too). -/
structure FileSystem where
  isFile : String → Bool
  decode : String → Option SourceImage
  listFolder : String → Option (List String)

/-- The full `resize_image` function on a path: open the image (failures
caught by the `except`), then fit it; `True` on success. -/
def resize_image_path (fs : FileSystem) (path : String) : Bool :=
  match fs.decode path with
  | none => false
  | some img => (resize_image img).isOk

/-- Characters of the final path component (after the last slash). -/
def baseName (p : List Char) : List Char :=
  (p.reverse.takeWhile (fun c => c != '/')).reverse

/-- The `pathlib` suffix of a path: `name[i:]` where `i` is the index of
the last dot of the final component, provided `0 < i < len(name) - 1`;
empty otherwise. -/
def pathSuffix (p : List Char) : List Char :=
  let name := baseName p
  let afterRev := name.reverse.takeWhile (fun c => c != '.')
  if afterRev.length = name.length then []
  else
    let i := name.length - 1 - afterRev.length
    if 0 < i ∧ i < name.length - 1 then name.drop i else []

/-- Python `str.lower` on the ASCII extensions at hand. -/
def lowerChars (cs : List Char) : List Char :=
  cs.map Char.toLower

/-- Lines 91-93: `Path(file_path).suffix.lower() in SUPPORTED_FORMATS`. -/
def is_supported_image (path : String) : Bool :=
  SUPPORTED_FORMATS.contains (String.mk (lowerChars (pathSuffix path.toList)))

/-- Whether a list of characters ends with the given (nonempty or empty)
ending. -/
def listEndsWith (s post : List Char) : Bool :=
  s.reverse.take post.length == post.reverse

/-- Matching of `folder.glob(f"*{ext}")` against a relative path of the
subtree: only direct children are considered, and the name must end with
`ext` literally (POSIX glob matching is case-sensitive; `*` may match the
empty string). -/
def matchesGlobPat (ext : String) (relPath : String) : Bool :=
  (!(relPath.toList.contains '/')) && listEndsWith relPath.toList ext.toList

/-- Matching of `folder.rglob(f"*{ext}")` against a relative path: any
depth, the final component must end with `ext` literally. -/
def matchesRGlobPat (ext : String) (relPath : String) : Bool :=
  listEndsWith (baseName relPath.toList) ext.toList

/-- Lines 146-153: for each supported extension, extend `image_files`
with the glob (or rglob) matches.  The listing holds every entry of the
subtree — glob does not distinguish files from subdirectories, so a
subdirectory named, say, `holiday.jpg` is discovered too. -/
def findImageFiles (entries : List String) (recursive : Bool) : List String :=
  SUPPORTED_FORMATS.foldl
    (fun acc ext =>
      acc ++ entries.filter
        (fun f => if recursive then matchesRGlobPat ext f else matchesGlobPat ext f))
    []

/-- Lines 96-106: `process_file`. -/
def process_file (fs : FileSystem) (path : String) : Bool :=
  if fs.isFile path = false then false
  else if is_supported_image path = false then false
  else resize_image_path fs path

/-- Lines 109-125: `process_files`, tallying successes and failures. -/
def process_files (fs : FileSystem) (paths : List String) : ℕ × ℕ :=
  paths.foldl
    (fun acc p => if process_file fs p then (acc.1 + 1, acc.2) else (acc.1, acc.2 + 1))
    (0, 0)

/-- Lines 128-170: `process_folder`.  A missing folder or an empty
discovery list short-circuits to `(0, 0)`; otherwise every discovered
file is fed to `resize_image` (note: not through `process_file`). -/
def process_folder (fs : FileSystem) (folderPath : String) (recursive : Bool) : ℕ × ℕ :=
  match fs.listFolder folderPath with
  | none => (0, 0)
  | some files =>
    let image_files := findImageFiles files recursive
    if image_files.isEmpty then (0, 0)
    else
      image_files.foldl
        (fun acc f =>
          if resize_image_path fs (folderPath ++ "/" ++ f) then (acc.1 + 1, acc.2)
          else (acc.1, acc.2 + 1))
        (0, 0)

/-! Arithmetic facts about the canvas-fitting computation. -/

lemma pyInt_of_nonneg {q : ℚ} (h : 0 ≤ q) : pyInt q = ⌊q⌋ :=
  if_pos h

lemma scale_nonneg (w h : ℕ) : 0 ≤ scale w h :=
  le_min (div_nonneg (Nat.cast_nonneg _) (Nat.cast_nonneg _))
    (div_nonneg (Nat.cast_nonneg _) (Nat.cast_nonneg _))

lemma width_mul_scale_nonneg (w h : ℕ) : 0 ≤ (w : ℚ) * scale w h :=
  mul_nonneg (Nat.cast_nonneg _) (scale_nonneg w h)

lemma height_mul_scale_nonneg (w h : ℕ) : 0 ≤ (h : ℚ) * scale w h :=
  mul_nonneg (Nat.cast_nonneg _) (scale_nonneg w h)

lemma width_mul_scale_le (w h : ℕ) : (w : ℚ) * scale w h ≤ (TARGET_SIZE : ℚ) := by
  rcases Nat.eq_zero_or_pos w with hw | hw
  · subst hw
    rw [Nat.cast_zero, zero_mul]
    exact Nat.cast_nonneg _
  · have hw0 : ((w : ℚ)) ≠ 0 := Nat.cast_ne_zero.mpr (Nat.pos_iff_ne_zero.mp hw)
    calc (w : ℚ) * scale w h ≤ (w : ℚ) * ((TARGET_SIZE : ℚ) / w) :=
          mul_le_mul_of_nonneg_left (min_le_left _ _) (Nat.cast_nonneg _)
      _ = (TARGET_SIZE : ℚ) := by rw [mul_comm, div_mul_cancel₀ _ hw0]

lemma height_mul_scale_le (w h : ℕ) : (h : ℚ) * scale w h ≤ (TARGET_SIZE : ℚ) := by
  rcases Nat.eq_zero_or_pos h with hh | hh
  · subst hh
    rw [Nat.cast_zero, zero_mul]
    exact Nat.cast_nonneg _
  · have hh0 : ((h : ℚ)) ≠ 0 := Nat.cast_ne_zero.mpr (Nat.pos_iff_ne_zero.mp hh)
    calc (h : ℚ) * scale w h ≤ (h : ℚ) * ((TARGET_SIZE : ℚ) / h) :=
          mul_le_mul_of_nonneg_left (min_le_right _ _) (Nat.cast_nonneg _)
      _ = (TARGET_SIZE : ℚ) := by rw [mul_comm, div_mul_cancel₀ _ hh0]

lemma new_width_le_target (w h : ℕ) : new_width w h ≤ TARGET_SIZE := by
  unfold new_width
  rw [pyInt_of_nonneg (width_mul_scale_nonneg w h), Int.toNat_le]
  calc ⌊(w : ℚ) * scale w h⌋ ≤ ⌊(TARGET_SIZE : ℚ)⌋ :=
        Int.floor_le_floor (width_mul_scale_le w h)
    _ = (TARGET_SIZE : ℤ) := Int.floor_natCast _

lemma new_height_le_target (w h : ℕ) : new_height w h ≤ TARGET_SIZE := by
  unfold new_height
  rw [pyInt_of_nonneg (height_mul_scale_nonneg w h), Int.toNat_le]
  calc ⌊(h : ℚ) * scale w h⌋ ≤ ⌊(TARGET_SIZE : ℚ)⌋ :=
        Int.floor_le_floor (height_mul_scale_le w h)
    _ = (TARGET_SIZE : ℤ) := Int.floor_natCast _

/-! Structural facts about `resize_image` and `fitCanvas`. -/

lemma resize_image_ok {img : SourceImage} (hw : 0 < img.width) (hh : 0 < img.height) :
    resize_image img = Except.ok (fitCanvas img) := by
  unfold resize_image
  rw [if_neg]
  rintro (h | h) <;> omega

lemma fitCanvas_fields (img : SourceImage) :
    (fitCanvas img).canvasWidth = TARGET_SIZE ∧
    (fitCanvas img).canvasHeight = TARGET_SIZE ∧
    (fitCanvas img).pastedWidth = new_width img.width img.height ∧
    (fitCanvas img).pastedHeight = new_height img.width img.height ∧
    (fitCanvas img).xOffset =
      Int.fdiv ((TARGET_SIZE : ℤ) - (new_width img.width img.height : ℤ)) 2 ∧
    (fitCanvas img).yOffset =
      Int.fdiv ((TARGET_SIZE : ℤ) - (new_height img.width img.height : ℤ)) 2 := by
  cases hb : usesTransparentBackground img <;> simp [fitCanvas, hb]

lemma fitCanvas_transparent {img : SourceImage} (hb : usesTransparentBackground img = true) :
    (fitCanvas img).canvasMode = Mode.RGBA ∧ (fitCanvas img).background = [0, 0, 0, 0] ∧
    (fitCanvas img).pastedMode = Mode.RGBA := by
  simp [fitCanvas, hb]

lemma fitCanvas_opaque {img : SourceImage} (hb : usesTransparentBackground img = false) :
    (fitCanvas img).canvasMode = Mode.RGB ∧ (fitCanvas img).background = [0, 0, 0] ∧
    (fitCanvas img).pastedMode = Mode.RGB := by
  simp [fitCanvas, hb]

lemma usesTransparentBackground_iff (img : SourceImage) :
    usesTransparentBackground img = true ↔
      img.mode = Mode.RGBA ∨ img.mode = Mode.LA ∨
        (img.mode = Mode.P ∧ img.hasTransparencyInfo = true) := by
  cases h : img.mode <;> simp [usesTransparentBackground, h]

/-- C1: for every source image with positive integer width and height,
`resize_image` succeeds and the canvas it produces is exactly
`TARGET_SIZE` by `TARGET_SIZE` (3000 by 3000), for upscaling and
downscaling alike. -/
theorem C1_output_canvas_is_target_square (img : SourceImage)
    (hw : 0 < img.width) (hh : 0 < img.height) :
    resize_image img = Except.ok (fitCanvas img) ∧
    (fitCanvas img).canvasWidth = TARGET_SIZE ∧
    (fitCanvas img).canvasHeight = TARGET_SIZE :=
  ⟨resize_image_ok hw hh, (fitCanvas_fields img).1, (fitCanvas_fields img).2.1⟩

/-- C1 witness: a 4000 by 2000 source (downscaling) produces a 3000 by
3000 canvas. -/
theorem C1_output_canvas_is_target_square_witness :
    resize_image ⟨4000, 2000, Mode.RGB, false⟩ =
      Except.ok (fitCanvas ⟨4000, 2000, Mode.RGB, false⟩) ∧
    (fitCanvas ⟨4000, 2000, Mode.RGB, false⟩).canvasWidth = TARGET_SIZE ∧
    (fitCanvas ⟨4000, 2000, Mode.RGB, false⟩).canvasHeight = TARGET_SIZE :=
  C1_output_canvas_is_target_square ⟨4000, 2000, Mode.RGB, false⟩ (by decide) (by decide)

/-- C2: the claim fails on the program.  At a 35 by 21 source the exact
floor semantics the claim states give
`floor(21 * min(3000/35, 3000/21)) = floor(1800) = 1800`, but the
program evaluates the scale and the product in binary64 floats,
computing `21 * (3000/35) = 1799.9999999999998` and truncating it to
1799: the program does not compute `floor(h * min(target/w, target/h))`.
The spec's bit-for-bit floor semantics are its stated intent, so this is
a defect of the code, not of the claim's idea. -/
theorem C2_float_truncation_misses_exact_floor :
    new_height_f64 35 21 = 1799 ∧
    (⌊(21 : ℚ) * min ((TARGET_SIZE : ℚ) / 35) ((TARGET_SIZE : ℚ) / 21)⌋).toNat = 1800 ∧
    (1799 : ℕ) ≠ 1800 := by
  refine ⟨by decide, ?_, by decide⟩
  have hmin : min ((TARGET_SIZE : ℚ) / 35) ((TARGET_SIZE : ℚ) / 21) =
      (TARGET_SIZE : ℚ) / 35 := by
    apply min_eq_left
    norm_num [TARGET_SIZE]
  have hprod : (21 : ℚ) * ((TARGET_SIZE : ℚ) / 35) = ((1800 : ℕ) : ℚ) := by
    norm_num [TARGET_SIZE]
  rw [hmin, hprod, Int.floor_natCast, Int.toNat_ofNat]

/-- C3: the claim fails on the program.  For the wide 91 by 50 source
the program computes `int(91 * (3000/91))` in binary64, that is
`int(2999.9999999999995) = 2999`, so the scaled width misses the target
by one pixel, and the 91 by 91 square source misses it on both axes.
The spec states that the longer side reaches the target exactly, so this
is a defect of the code's float arithmetic, not of the claim's idea. -/
theorem C3_float_longer_side_misses_target :
    ((50 : ℕ) < 91 ∧ new_width_f64 91 50 = 2999 ∧ (2999 : ℕ) ≠ TARGET_SIZE) ∧
    ((91 : ℕ) = 91 ∧ new_width_f64 91 91 = 2999 ∧ new_height_f64 91 91 = 2999) :=
  ⟨⟨by decide, by decide, by decide⟩, ⟨rfl, by decide, by decide⟩⟩

/-- C4: the placement offsets are the floor halves of the remaining
margins, they are nonnegative, and offset plus scaled dimension stays
within the target on both axes. -/
theorem C4_placement_within_canvas (img : SourceImage) (r : FitResult)
    (hw : 0 < img.width) (hh : 0 < img.height)
    (hr : resize_image img = Except.ok r) :
    r.xOffset = (((TARGET_SIZE - r.pastedWidth) / 2 : ℕ) : ℤ) ∧
    r.yOffset = (((TARGET_SIZE - r.pastedHeight) / 2 : ℕ) : ℤ) ∧
    0 ≤ r.xOffset ∧ 0 ≤ r.yOffset ∧
    r.xOffset + r.pastedWidth ≤ (TARGET_SIZE : ℤ) ∧
    r.yOffset + r.pastedHeight ≤ (TARGET_SIZE : ℤ) := by
  rw [resize_image_ok hw hh] at hr
  cases hr
  obtain ⟨-, -, hpw, hph, hxo, hyo⟩ := fitCanvas_fields img
  rw [hpw, hph, hxo, hyo]
  have hnw := new_width_le_target img.width img.height
  have hnh := new_height_le_target img.width img.height
  have hcw : ((TARGET_SIZE : ℤ) - (new_width img.width img.height : ℤ)) =
      ((TARGET_SIZE - new_width img.width img.height : ℕ) : ℤ) := by omega
  have hch : ((TARGET_SIZE : ℤ) - (new_height img.width img.height : ℤ)) =
      ((TARGET_SIZE - new_height img.width img.height : ℕ) : ℤ) := by omega
  rw [hcw, hch]
  have hfw : Int.fdiv ((TARGET_SIZE - new_width img.width img.height : ℕ) : ℤ) 2 =
      (((TARGET_SIZE - new_width img.width img.height) / 2 : ℕ) : ℤ) :=
    (Int.ofNat_fdiv _ 2).symm
  have hfh : Int.fdiv ((TARGET_SIZE - new_height img.width img.height : ℕ) : ℤ) 2 =
      (((TARGET_SIZE - new_height img.width img.height) / 2 : ℕ) : ℤ) :=
    (Int.ofNat_fdiv _ 2).symm
  rw [hfw, hfh]
  have hbw : (TARGET_SIZE - new_width img.width img.height) / 2 +
      new_width img.width img.height ≤ TARGET_SIZE := by omega
  have hbh : (TARGET_SIZE - new_height img.width img.height) / 2 +
      new_height img.width img.height ≤ TARGET_SIZE := by omega
  refine ⟨rfl, rfl, Int.ofNat_nonneg _, Int.ofNat_nonneg _, ?_, ?_⟩ <;> exact_mod_cast ‹_›

/-- C4 witness: the 4000 by 2000 source, whose scaled image is 3000 by
1500 placed at vertical offset 750. -/
theorem C4_placement_within_canvas_witness :
    (fitCanvas ⟨4000, 2000, Mode.RGB, false⟩).xOffset =
      (((TARGET_SIZE - (fitCanvas ⟨4000, 2000, Mode.RGB, false⟩).pastedWidth) / 2 : ℕ) : ℤ) ∧
    (fitCanvas ⟨4000, 2000, Mode.RGB, false⟩).yOffset =
      (((TARGET_SIZE - (fitCanvas ⟨4000, 2000, Mode.RGB, false⟩).pastedHeight) / 2 : ℕ) : ℤ) ∧
    0 ≤ (fitCanvas ⟨4000, 2000, Mode.RGB, false⟩).xOffset ∧
    0 ≤ (fitCanvas ⟨4000, 2000, Mode.RGB, false⟩).yOffset ∧
    (fitCanvas ⟨4000, 2000, Mode.RGB, false⟩).xOffset +
      (fitCanvas ⟨4000, 2000, Mode.RGB, false⟩).pastedWidth ≤ (TARGET_SIZE : ℤ) ∧
    (fitCanvas ⟨4000, 2000, Mode.RGB, false⟩).yOffset +
      (fitCanvas ⟨4000, 2000, Mode.RGB, false⟩).pastedHeight ≤ (TARGET_SIZE : ℤ) :=
  C4_placement_within_canvas ⟨4000, 2000, Mode.RGB, false⟩
    (fitCanvas ⟨4000, 2000, Mode.RGB, false⟩) (by decide) (by decide)
    (resize_image_ok (by decide) (by decide))

/-- C5: sources whose mode has alpha (RGBA, LA) or that are indexed with
a transparency entry get a fully transparent black 4-channel RGBA canvas,
all others an opaque black 3-channel RGB canvas; the pasted image is
converted to the canvas mode. -/
theorem C5_background_mode_selection (img : SourceImage) (r : FitResult)
    (hw : 0 < img.width) (hh : 0 < img.height)
    (hr : resize_image img = Except.ok r) :
    ((img.mode = Mode.RGBA ∨ img.mode = Mode.LA ∨
        (img.mode = Mode.P ∧ img.hasTransparencyInfo = true)) →
      r.canvasMode = Mode.RGBA ∧ r.background = [0, 0, 0, 0] ∧
      r.background.length = 4 ∧ r.pastedMode = Mode.RGBA) ∧
    (¬(img.mode = Mode.RGBA ∨ img.mode = Mode.LA ∨
        (img.mode = Mode.P ∧ img.hasTransparencyInfo = true)) →
      r.canvasMode = Mode.RGB ∧ r.background = [0, 0, 0] ∧
      r.background.length = 3 ∧ r.pastedMode = Mode.RGB) := by
  rw [resize_image_ok hw hh] at hr
  cases hr
  constructor
  · intro hcond
    obtain ⟨h1, h2, h3⟩ :=
      fitCanvas_transparent ((usesTransparentBackground_iff img).mpr hcond)
    exact ⟨h1, h2, by rw [h2]; rfl, h3⟩
  · intro hcond
    have hb : usesTransparentBackground img = false := by
      rcases hb : usesTransparentBackground img with _ | _
      · rfl
      · exact absurd ((usesTransparentBackground_iff img).mp hb) hcond
    obtain ⟨h1, h2, h3⟩ := fitCanvas_opaque hb
    exact ⟨h1, h2, by rw [h2]; rfl, h3⟩

/-- C5 witness: a 500 by 300 RGBA source gets the transparent 4-channel
canvas, and the negated branch is carried along vacuously. -/
theorem C5_background_mode_selection_witness :
    ((Mode.RGBA = Mode.RGBA ∨ Mode.RGBA = Mode.LA ∨
        (Mode.RGBA = Mode.P ∧ false = true)) →
      (fitCanvas ⟨500, 300, Mode.RGBA, false⟩).canvasMode = Mode.RGBA ∧
      (fitCanvas ⟨500, 300, Mode.RGBA, false⟩).background = [0, 0, 0, 0] ∧
      (fitCanvas ⟨500, 300, Mode.RGBA, false⟩).background.length = 4 ∧
      (fitCanvas ⟨500, 300, Mode.RGBA, false⟩).pastedMode = Mode.RGBA) ∧
    (¬(Mode.RGBA = Mode.RGBA ∨ Mode.RGBA = Mode.LA ∨
        (Mode.RGBA = Mode.P ∧ false = true)) →
      (fitCanvas ⟨500, 300, Mode.RGBA, false⟩).canvasMode = Mode.RGB ∧
      (fitCanvas ⟨500, 300, Mode.RGBA, false⟩).background = [0, 0, 0] ∧
      (fitCanvas ⟨500, 300, Mode.RGBA, false⟩).background.length = 3 ∧
      (fitCanvas ⟨500, 300, Mode.RGBA, false⟩).pastedMode = Mode.RGB) :=
  C5_background_mode_selection ⟨500, 300, Mode.RGBA, false⟩
    (fitCanvas ⟨500, 300, Mode.RGBA, false⟩) (by decide) (by decide)
    (resize_image_ok (by decide) (by decide))

/-! Driver-level facts: discovery, tallying, missing inputs. -/

lemma foldl_extend_empty {β : Type} (exts : List String) (files : List β)
    (pred : String → β → Bool)
    (hp : ∀ e ∈ exts, ∀ f ∈ files, pred e f = false) :
    ∀ acc : List β, exts.foldl (fun acc e => acc ++ files.filter (pred e)) acc = acc := by
  induction exts with
  | nil => intro acc; rfl
  | cons e es ih =>
    intro acc
    simp only [List.foldl_cons]
    rw [List.filter_eq_nil_iff.mpr
      (fun f hf => by simp [hp e (List.mem_cons_self e es) f hf]),
      List.append_nil]
    exact ih (fun e he f hf => hp e (List.mem_cons_of_mem _ he) f hf) acc

/-- A filesystem with one folder `photos` holding a single decodable
image whose name carries an uppercase extension. -/
def upperCaseFS : FileSystem :=
  ⟨fun _ => true, fun _ => some ⟨100, 100, Mode.RGB, false⟩,
    fun p => if p = "photos" then some ["photo.JPG"] else none⟩

/-- C6: the claim of case-insensitive batch discovery fails on the code.
The extension check used on the single-file path accepts `photo.JPG`
case-insensitively, and `process_file` succeeds on it, but batch
discovery globs only the literal lowercase patterns (POSIX glob matching
is case-sensitive), so the very same file is never enumerated — neither
non-recursively nor recursively — while its lowercase twin is, and the
whole folder yields `(0, 0)` as if it held no images. -/
theorem C6_uppercase_extension_not_discovered :
    is_supported_image "photo.JPG" = true ∧
    process_file upperCaseFS "photos/photo.JPG" = true ∧
    findImageFiles ["photo.JPG"] false = [] ∧
    findImageFiles ["photo.JPG"] true = [] ∧
    findImageFiles ["photo.jpg"] false = ["photo.jpg"] ∧
    process_folder upperCaseFS "photos" false = (0, 0) :=
  ⟨by decide, by decide, by decide, by decide, by decide, by decide⟩

/-- A source image whose decoded width is zero. -/
def zeroWidthImage : SourceImage := ⟨0, 5, Mode.RGB, false⟩

/-- A filesystem on which every path exists and decodes to the
zero-width image. -/
def zeroDimFS : FileSystem :=
  ⟨fun _ => true, fun _ => some zeroWidthImage, fun _ => none⟩

/-- C7: a decoded width or height of zero makes `resize_image` fail with
the `ZeroDivisionError` raised at the scale computation — no scale factor
is ever produced — and the caught error makes `process_file` report the
path as a failure. -/
theorem C7_zero_dimension_is_failure (img : SourceImage) (fs : FileSystem) (path : String)
    (hz : img.width = 0 ∨ img.height = 0) (hdec : fs.decode path = some img) :
    resize_image img = Except.error "ZeroDivisionError: division by zero" ∧
    process_file fs path = false := by
  have herr : resize_image img = Except.error "ZeroDivisionError: division by zero" := by
    unfold resize_image
    rw [if_pos hz]
  refine ⟨herr, ?_⟩
  unfold process_file
  split
  · rfl
  · split
    · rfl
    · unfold resize_image_path
      rw [hdec]
      show (resize_image img).isOk = false
      rw [herr]
      rfl

/-- C7 witness: a zero-width decode of `broken.png` is an error and a
counted failure. -/
theorem C7_zero_dimension_is_failure_witness :
    resize_image zeroWidthImage = Except.error "ZeroDivisionError: division by zero" ∧
    process_file zeroDimFS "broken.png" = false :=
  C7_zero_dimension_is_failure zeroWidthImage zeroDimFS "broken.png" (Or.inl rfl) rfl

/-- A filesystem with no files and no folders. -/
def emptyFS : FileSystem := ⟨fun _ => false, fun _ => none, fun _ => none⟩

/-- C8: a nonexistent single-file input makes `process_file` fail and
counts as one failure in the tally, and a batch path that is not an
existing directory makes `process_folder` contribute exactly
`(0, 0)`. -/
theorem C8_missing_inputs (fs : FileSystem) (path : String) (recursive : Bool) :
    (fs.isFile path = false →
      process_file fs path = false ∧ process_files fs [path] = (0, 1)) ∧
    (fs.listFolder path = none → process_folder fs path recursive = (0, 0)) := by
  constructor
  · intro hnf
    have h1 : process_file fs path = false := by
      unfold process_file
      rw [if_pos hnf]
    refine ⟨h1, ?_⟩
    unfold process_files
    simp [h1]
  · intro hnd
    unfold process_folder
    rw [hnd]

/-- C8 witness: on the empty filesystem, a missing file is a counted
failure and a missing folder yields `(0, 0)`. -/
theorem C8_missing_inputs_witness :
    (process_file emptyFS "missing.jpg" = false ∧
      process_files emptyFS ["missing.jpg"] = (0, 1)) ∧
    process_folder emptyFS "missing" true = (0, 0) :=
  ⟨(C8_missing_inputs emptyFS "missing.jpg" true).1 rfl,
    (C8_missing_inputs emptyFS "missing" true).2 rfl⟩

lemma process_files_count (fs : FileSystem) (paths : List String) :
    ∀ acc : ℕ × ℕ,
      (paths.foldl
        (fun acc p => if process_file fs p then (acc.1 + 1, acc.2) else (acc.1, acc.2 + 1))
        acc).1 +
      (paths.foldl
        (fun acc p => if process_file fs p then (acc.1 + 1, acc.2) else (acc.1, acc.2 + 1))
        acc).2 = acc.1 + acc.2 + paths.length := by
  induction paths with
  | nil => intro acc; simp
  | cons p ps ih =>
    intro acc
    simp only [List.foldl_cons, List.length_cons]
    rw [ih]
    by_cases hp : process_file fs p <;> simp [hp] <;> omega

/-- C9: `process_files` counts every input path exactly once, so the
success and failure tallies always sum to the number of paths. -/
theorem C9_tallies_sum_to_input_length (fs : FileSystem) (paths : List String) :
    (process_files fs paths).1 + (process_files fs paths).2 = paths.length := by
  unfold process_files
  rw [process_files_count]
  simp

/-- A filesystem with one folder `photos` whose only entry is a file
named exactly `.jpg`, which fails to decode. -/
def dotFileFS : FileSystem :=
  ⟨fun _ => false, fun _ => none,
    fun p => if p = "photos" then some [".jpg"] else none⟩

/-- C10 counterexample: the folder `photos` exists and contains no file
with a supported extension — its only entry, named exactly `.jpg`, has an
empty `pathlib` suffix, so the tool's own extension check rejects it —
yet the glob pattern `*.jpg` still matches it (`*` matches the empty
string), so `process_folder` processes it and returns `(0, 1)`, not
`(0, 0)`. -/
theorem C10_counterexample_dotfile :
    dotFileFS.listFolder "photos" = some [".jpg"] ∧
    (∀ f ∈ [".jpg"], is_supported_image f = false) ∧
    process_folder dotFileFS "photos" false = (0, 1) ∧
    ((0, 1) : ℕ × ℕ) ≠ ((0, 0) : ℕ × ℕ) :=
  ⟨rfl, by decide, by decide, by decide⟩

/-- A folder whose only entry is a subdirectory named `holiday.jpg`: the
entry is not a regular file and `Image.open` fails on it
(`IsADirectoryError`), so it decodes to nothing. -/
def dirEntryFS : FileSystem :=
  ⟨fun _ => false, fun _ => none,
    fun p => if p = "photos" then some ["holiday.jpg"] else none⟩

/-- Glob matching does not distinguish files from directories: a folder
containing no file at all, only a subdirectory named `holiday.jpg`, is
still discovered by the `*.jpg` pattern, `Image.open` then fails on the
directory, and the folder tallies one failure instead of `(0, 0)` — so
only the absence of matching entries, not of matching files, guarantees
the zero result. -/
lemma process_folder_counts_matching_dir_entry :
    process_folder dirEntryFS "photos" false = (0, 1) := by decide

/-- C10 (amended): for every existing directory in which no entry — file
or subdirectory — matches any of the lowercase glob patterns of the
supported extensions (direct children in non-recursive mode, the full
subtree in recursive mode), `process_folder` returns exactly `(0, 0)`,
indistinguishable in the aggregate counts and exit code from a
nonexistent directory. -/
theorem C10_no_glob_match_yields_zero (fs : FileSystem) (folderPath : String)
    (entries : List String) (recursive : Bool)
    (hdir : fs.listFolder folderPath = some entries)
    (hnone : ∀ f ∈ entries, ∀ ext ∈ SUPPORTED_FORMATS,
      (if recursive then matchesRGlobPat ext f else matchesGlobPat ext f) = false) :
    process_folder fs folderPath recursive = (0, 0) := by
  have hfind : findImageFiles entries recursive = [] := by
    unfold findImageFiles
    exact foldl_extend_empty SUPPORTED_FORMATS entries _
      (fun e he f hf => hnone f hf e he) []
  unfold process_folder
  rw [hdir]
  simp [hfind]

/-- C10 witness: a folder holding only `readme.txt` and a subfolder text
file yields `(0, 0)`. -/
theorem C10_no_glob_match_yields_zero_witness :
    process_folder
      ⟨fun _ => false, fun _ => none,
        fun p => if p = "docs" then some ["readme.txt", "sub/notes.txt"] else none⟩
      "docs" false = (0, 0) :=
  C10_no_glob_match_yields_zero
    ⟨fun _ => false, fun _ => none,
      fun p => if p = "docs" then some ["readme.txt", "sub/notes.txt"] else none⟩
    "docs" ["readme.txt", "sub/notes.txt"] false rfl (by decide)

end Reziser
